import Mathlib

/-!
Shallow embedding of the AfterLiving floor-plan analysis pipeline.

Sources embedded:
- src/web-app/backend/gem_ai/floorplan_model.py : the class-index catalogue,
  the mask-to-rectangle extractor, the primary detection strategy and the
  process-wide model cache.
- src/web-app/backend/main.py : the orchestrator of the analyze endpoint,
  the pixel-to-metric projection and the result record returned to callers.

Python floats are modelled as rationals, Python ints as integers.  External
collaborators (cv2 contour discovery, the torch runtime, the hybrid detector)
enter the model as explicit function parameters; the code of this repository
is translated literally around them.
-/

namespace AfterLiving

/-- A primitive JSON-like value as stored in the Python dicts built by the
backend: a string, a float (modelled as a rational) or an int. -/
inductive Prim where
  | s : String → Prim
  | q : ℚ → Prim
  | z : ℤ → Prim
deriving DecidableEq, Repr

/-- Read a rational out of an association-list dict, as the Python code does
with d[key] when the key is known to hold a number; absent keys give 0. -/
def getQ (d : List (String × Prim)) (k : String) : ℚ :=
  match d.lookup k with
  | some (Prim.q v) => v
  | _ => 0

/-- The metric room record built for each pixel rectangle in main.py
lines 217-227: y is flipped from the image (y-down) convention to the plan
(y-up) convention using the image height, and every length is divided by the
pixels-per-metre scale. -/
def to_metric_dict (x y w h : ℤ) (height : ℤ) (ppm : ℚ) : List (String × Prim) :=
  let y_flipped : ℚ := ((height : ℚ) - (y : ℚ) - (h : ℚ)) / ppm
  [("x", Prim.q ((x : ℚ) / ppm)),
   ("y", Prim.q y_flipped),
   ("width", Prim.q ((w : ℚ) / ppm)),
   ("height", Prim.q ((h : ℚ) / ppm)),
   ("area_m2", Prim.q (((w : ℚ) / ppm) * ((h : ℚ) / ppm)))]

/-- The ROOM_CATEGORIES dict of floorplan_model.py, read through
ROOM_CATEGORIES.get(class_id, "other") as the extractor does: indices 0-10
name the eleven classes, any other index falls back to "other". -/
def ROOM_CATEGORIES : Nat → String
  | 0 => "background"
  | 1 => "outdoor"
  | 2 => "wall"
  | 3 => "kitchen"
  | 4 => "living_room"
  | 5 => "bedroom"
  | 6 => "bathroom"
  | 7 => "hallway"
  | 8 => "storage"
  | 9 => "garage"
  | 10 => "other"
  | _ => "other"

/-- NUM_CLASSES = len(ROOM_CATEGORIES) = 11. -/
def NUM_CLASSES : Nat := 11

/-- An externally-bounded contour as cv2 reports it to the extractor: its
enclosed area (cv2.contourArea, a float) and its axis-aligned bounding
rectangle (cv2.boundingRect, four ints). -/
structure Contour where
  area : ℚ
  x : ℤ
  y : ℤ
  w : ℤ
  h : ℤ
deriving DecidableEq, Repr

/-- The pixel-space room dict produced by the extractor: bounding box plus
the class name of the segmentation class the region came from. -/
structure PxRoom where
  x : ℤ
  y : ℤ
  w : ℤ
  h : ℤ
  class_name : String
deriving DecidableEq, Repr

/-- The room record appended for a retained contour in
extract_rooms_from_mask (floorplan_model.py lines 127-129). -/
def roomOf (class_id : Nat) (c : Contour) : PxRoom :=
  { x := c.x, y := c.y, w := c.w, h := c.h, class_name := ROOM_CATEGORIES class_id }

/-- extract_rooms_from_mask (floorplan_model.py lines 118-130): for every
class index except 0 (background) and 2 (wall), build the binary mask of
pixels equal to that class, hand it to the external contour finder fc
(cv2.findContours with RETR_EXTERNAL), and keep the bounding box of every
contour whose enclosed area is at least min_area.  fc is a parameter because
cv2 is an external collaborator; the mask is a function from coordinates to
class indices. -/
def extract_rooms_from_mask (fc : (Nat → Nat → Bool) → List Contour)
    (mask : Nat → Nat → Nat) (min_area : ℚ) : List PxRoom :=
  (List.range NUM_CLASSES).flatMap (fun class_id =>
    if class_id = 0 ∨ class_id = 2 then []
    else
      ((fc (fun i j => mask i j == class_id)).filter (fun c => min_area ≤ c.area)).map
        (roomOf class_id))

/-- The body of the try block of detect_rooms_floorplan_model
(floorplan_model.py lines 135-139): load the cached model when none was
passed in, predict a mask from the image, extract rooms from the mask.  Each
step may raise (torch, cv2), modelled as Except; types of the model, mask
and image are abstract. -/
def run_primary {M Mask Img : Type} (load : Except String M)
    (predict : M → Img → Except String Mask)
    (extract : M → Mask → ℚ → Except String (List PxRoom))
    (model : Option M) (image : Img) (min_area : ℚ) : Except String (List PxRoom) := do
  let m ← match model with
    | some m0 => Except.ok m0
    | none => load
  let msk ← predict m image
  extract m msk min_area

/-- detect_rooms_floorplan_model (floorplan_model.py lines 132-142): return
[] when the torch runtime is unavailable; otherwise run the pipeline inside
a try block whose except branch logs the error and returns []. -/
def detect_rooms_floorplan_model {M Mask Img : Type} (torch_available : Bool)
    (load : Except String M) (predict : M → Img → Except String Mask)
    (extract : M → Mask → ℚ → Except String (List PxRoom))
    (model : Option M) (image : Img) (min_area : ℚ) : List PxRoom :=
  if torch_available = false then []
  else
    match run_primary load predict extract model image min_area with
    | Except.ok rooms => rooms
    | Except.error _ => []

/-- The HTTP error raised by the analyze endpoint (fastapi HTTPException,
reduced to the two fields main.py passes). -/
structure HTTPException where
  status_code : Nat
  detail : String
deriving DecidableEq, Repr

/-- The room-detection step of analyze_floorplan (main.py lines 196-211):
call the primary detector detect_rooms_advanced with method "floorplan", and
only when it returned an empty list call the hybrid detect_rooms, passing
both the very same color image, grayscale image, effective SAM flag
(use_sam and SAM_AVAILABLE) and debug directory.  Both detectors live in
gem_ai.detector (an external collaborator) and are passed as functions.  The
returned Bool records whether the fallback was invoked. -/
def room_detection {Img : Type}
    (advanced : Img → Img → String → Bool → String → List PxRoom)
    (hybrid : Img → Img → Bool → String → List PxRoom)
    (image gray : Img) (use_sam sam_available : Bool) (job_dir : String) :
    List PxRoom × Bool :=
  let rooms_px := advanced image gray "floorplan" (use_sam && sam_available) job_dir
  if rooms_px.isEmpty then
    (hybrid image gray (use_sam && sam_available) job_dir, true)
  else
    (rooms_px, false)

/-- The empty-result check of analyze_floorplan (main.py lines 213-214): when
detection found no rooms, HTTPException(422, "No rooms detected in image") is
raised; otherwise the detected rooms flow on into the pipeline. -/
def detection_result {Img : Type}
    (advanced : Img → Img → String → Bool → String → List PxRoom)
    (hybrid : Img → Img → Bool → String → List PxRoom)
    (image gray : Img) (use_sam sam_available : Bool) (job_dir : String) :
    Except HTTPException (List PxRoom) :=
  let r := room_detection advanced hybrid image gray use_sam sam_available job_dir
  if r.1.isEmpty then Except.error ⟨422, "No rooms detected in image"⟩
  else Except.ok r.1

/-- A constructed FloorPlanSegmentationModel instance: uid distinguishes
separately-constructed instances, mpath records the model_path argument the
constructor received. -/
structure ModelInstance where
  uid : Nat
  mpath : Option String
deriving DecidableEq, Repr

/-- The global _floorplan_model_cache dict of floorplan_model.py line 144,
together with a supply of fresh instance identifiers, threaded explicitly. -/
structure CacheState where
  cache : List (String × ModelInstance)
  nextId : Nat
deriving DecidableEq, Repr

/-- The cache key of load_floorplan_model line 148: key = model_path or
"default", so None and the empty string (Python falsy values) normalize to
"default" while any other string is its own key. -/
def cacheKey : Option String → String
  | none => "default"
  | some p => if p = "" then "default" else p

/-- load_floorplan_model (floorplan_model.py lines 146-151): look the key up
in the cache; on a miss construct a FloorPlanSegmentationModel with the given
model_path and store it under the key; return the cached instance. -/
def load_floorplan_model (st : CacheState) (model_path : Option String) :
    ModelInstance × CacheState :=
  let key := cacheKey model_path
  match st.cache.lookup key with
  | some inst => (inst, st)
  | none =>
    let inst : ModelInstance := ⟨st.nextId, model_path⟩
    (inst, ⟨(key, inst) :: st.cache, st.nextId + 1⟩)

/-- A sequence of cache lookups, returning the final cache state. -/
def run_lookups (st : CacheState) : List (Option String) → CacheState
  | [] => st
  | p :: ps => run_lookups (load_floorplan_model st p).2 ps

/-- A value of the analyze_floorplan result dict: a primitive, a flat dict,
or a list of flat dicts (the metric rooms). -/
inductive RVal where
  | p : Prim → RVal
  | d : List (String × Prim) → RVal
  | ld : List (List (String × Prim)) → RVal

/-- The rooms_m list of main.py lines 217-227: one metric dict per detected
pixel room. -/
def rooms_m_of (rooms_px : List PxRoom) (height : ℤ) (ppm : ℚ) :
    List (List (String × Prim)) :=
  rooms_px.map (fun r => to_metric_dict r.x r.y r.w r.h height ppm)

/-- total_area = sum(r["area_m2"] for r in rooms_m), main.py line 229. -/
def total_area (rooms_m : List (List (String × Prim))) : ℚ :=
  (rooms_m.map (fun r => getQ r "area_m2")).sum

/-- Python round-half-to-even on an exact rational, the idealization of the
built-in round over exact values. -/
def round_half_even (q : ℚ) : ℤ :=
  let f := q.floor
  let r := q - (f : ℚ)
  if r < 1 / 2 then f
  else if 1 / 2 < r then f + 1
  else if f % 2 = 0 then f else f + 1

/-- round(x, 1) as used in main.py line 271. -/
def round1 (q : ℚ) : ℚ := ((round_half_even (q * 10) : ℤ) : ℚ) / 10

/-- The scale_info dict of the user-provided branch, main.py lines 188-192. -/
def scale_info_user (ppm : ℚ) : List (String × Prim) :=
  [("detected", Prim.s "user_provided"),
   ("pixels_per_metre", Prim.q ppm),
   ("confidence", Prim.s "user")]

/-- The files dict of the result record, main.py lines 274-279. -/
def files_dict (job_id : String) : List (String × Prim) :=
  [("preview", Prim.s ("/download/" ++ job_id ++ "/preview.png")),
   ("gbxml", Prim.s ("/download/" ++ job_id ++ "/floorplan.xml")),
   ("obj", Prim.s ("/download/" ++ job_id ++ "/floorplan.obj")),
   ("input", Prim.s ("/download/" ++ job_id ++ "/input.png"))]

/-- The result record returned by analyze_floorplan (main.py lines 263-280),
keys in source order; the wall-clock processing_time_sec entry is omitted as
untranslatable.  Note the record holds rooms_m (the metric dicts) and never
the pixel-space rooms_px list. -/
def analyze_result (job_id method : String) (scale_info : List (String × Prim))
    (width height : ℤ) (rooms_m : List (List (String × Prim))) (floor_height : ℚ) :
    List (String × RVal) :=
  [("job_id", RVal.p (Prim.s job_id)),
   ("status", RVal.p (Prim.s "success")),
   ("method", RVal.p (Prim.s method)),
   ("scale", RVal.d scale_info),
   ("image_size", RVal.d [("width", Prim.z width), ("height", Prim.z height)]),
   ("rooms_detected", RVal.p (Prim.z (rooms_m.length : ℤ))),
   ("total_area_m2", RVal.p (Prim.q (round1 (total_area rooms_m)))),
   ("floor_height_m", RVal.p (Prim.q floor_height)),
   ("rooms", RVal.ld rooms_m),
   ("files", RVal.d (files_dict job_id))]

/-- The strings held by a primitive value. -/
def primStrings : Prim → List String
  | Prim.s v => [v]
  | _ => []

/-- All keys and string values of a flat dict. -/
def dictStrings (d : List (String × Prim)) : List String :=
  d.flatMap (fun kv => kv.1 :: primStrings kv.2)

/-- All keys and string values below a result-record value. -/
def rvalStrings : RVal → List String
  | RVal.p v => primStrings v
  | RVal.d d0 => dictStrings d0
  | RVal.ld ds => ds.flatMap dictStrings

/-- All keys and string values occurring anywhere in a result record. -/
def resultStrings (res : List (String × RVal)) : List String :=
  res.flatMap (fun kv => kv.1 :: rvalStrings kv.2)

end AfterLiving

namespace AfterLiving

/-- C1: the geometric projection divides x, w, h by ppm, flips y with
height - y - h before dividing, and sets area_m2 to the product of the metric
width and height; at the concrete scenario (x=100, y=50, w=80, h=40), H=600,
ppm=100 it produces x=1.0, y=5.1, width=0.8, height=0.4, area_m2=0.32. -/
theorem C1_projection (x y w h height : ℤ) (ppm : ℚ) (hppm : 0 < ppm) :
    (to_metric_dict x y w h height ppm).lookup "x" = some (Prim.q ((x : ℚ) / ppm)) ∧
    (to_metric_dict x y w h height ppm).lookup "width" = some (Prim.q ((w : ℚ) / ppm)) ∧
    (to_metric_dict x y w h height ppm).lookup "height" = some (Prim.q ((h : ℚ) / ppm)) ∧
    (to_metric_dict x y w h height ppm).lookup "y" =
      some (Prim.q (((height : ℚ) - (y : ℚ) - (h : ℚ)) / ppm)) ∧
    (to_metric_dict x y w h height ppm).lookup "area_m2" =
      some (Prim.q (((w : ℚ) / ppm) * ((h : ℚ) / ppm))) ∧
    to_metric_dict 100 50 80 40 600 100 =
      [("x", Prim.q 1), ("y", Prim.q (51 / 10)), ("width", Prim.q (4 / 5)),
       ("height", Prim.q (2 / 5)), ("area_m2", Prim.q (8 / 25))] := by
  refine ⟨rfl, rfl, rfl, rfl, rfl, ?_⟩
  simp only [to_metric_dict]
  norm_num

/-- Witness for C1 at the concrete scenario inputs. -/
theorem C1_projection_witness :
    (0 : ℚ) < 100 ∧
    ((to_metric_dict 100 50 80 40 600 100).lookup "x" = some (Prim.q ((100 : ℚ) / 100)) ∧
     (to_metric_dict 100 50 80 40 600 100).lookup "width" = some (Prim.q ((80 : ℚ) / 100)) ∧
     (to_metric_dict 100 50 80 40 600 100).lookup "height" = some (Prim.q ((40 : ℚ) / 100)) ∧
     (to_metric_dict 100 50 80 40 600 100).lookup "y" =
       some (Prim.q ((((600 : ℤ) : ℚ) - ((50 : ℤ) : ℚ) - ((40 : ℤ) : ℚ)) / 100)) ∧
     (to_metric_dict 100 50 80 40 600 100).lookup "area_m2" =
       some (Prim.q (((80 : ℚ) / 100) * ((40 : ℚ) / 100))) ∧
     to_metric_dict 100 50 80 40 600 100 =
       [("x", Prim.q 1), ("y", Prim.q (51 / 10)), ("width", Prim.q (4 / 5)),
        ("height", Prim.q (2 / 5)), ("area_m2", Prim.q (8 / 25))]) :=
  ⟨by norm_num, C1_projection 100 50 80 40 600 100 (by norm_num)⟩

/-- C8: inverting the metric transform (multiply x, width and height back by
ppm, and recover y as H minus the scaled metric y minus h) reconstructs the
original pixel rectangle exactly over the rationals, for any ppm > 0. -/
theorem C8_round_trip (x y w h height : ℤ) (ppm : ℚ) (hppm : 0 < ppm) :
    getQ (to_metric_dict x y w h height ppm) "x" * ppm = (x : ℚ) ∧
    getQ (to_metric_dict x y w h height ppm) "width" * ppm = (w : ℚ) ∧
    getQ (to_metric_dict x y w h height ppm) "height" * ppm = (h : ℚ) ∧
    (height : ℚ) - getQ (to_metric_dict x y w h height ppm) "y" * ppm - (h : ℚ) = (y : ℚ) := by
  have hne : ppm ≠ 0 := ne_of_gt hppm
  have hx : getQ (to_metric_dict x y w h height ppm) "x" = (x : ℚ) / ppm := rfl
  have hw : getQ (to_metric_dict x y w h height ppm) "width" = (w : ℚ) / ppm := rfl
  have hh : getQ (to_metric_dict x y w h height ppm) "height" = (h : ℚ) / ppm := rfl
  have hy : getQ (to_metric_dict x y w h height ppm) "y" =
      ((height : ℚ) - (y : ℚ) - (h : ℚ)) / ppm := rfl
  refine ⟨?_, ?_, ?_, ?_⟩
  · rw [hx, div_mul_cancel₀ _ hne]
  · rw [hw, div_mul_cancel₀ _ hne]
  · rw [hh, div_mul_cancel₀ _ hne]
  · rw [hy, div_mul_cancel₀ _ hne]; ring

/-- Witness for C8 at the scenario-3 pixel rectangle. -/
theorem C8_round_trip_witness :
    (0 : ℚ) < 100 ∧
    (getQ (to_metric_dict 100 50 80 40 600 100) "x" * 100 = ((100 : ℤ) : ℚ) ∧
     getQ (to_metric_dict 100 50 80 40 600 100) "width" * 100 = ((80 : ℤ) : ℚ) ∧
     getQ (to_metric_dict 100 50 80 40 600 100) "height" * 100 = ((40 : ℤ) : ℚ) ∧
     ((600 : ℤ) : ℚ) - getQ (to_metric_dict 100 50 80 40 600 100) "y" * 100 - ((40 : ℤ) : ℚ) =
       ((50 : ℤ) : ℚ)) :=
  ⟨by norm_num, C8_round_trip 100 50 80 40 600 100 (by norm_num)⟩

/-- C6: the extractor never emits a rectangle labelled background or wall,
for every contour finder, mask and area threshold: class indices 0 and 2 are
skipped by the loop, and no other index maps to those names. -/
theorem C6_no_background_or_wall (fc : (Nat → Nat → Bool) → List Contour)
    (mask : Nat → Nat → Nat) (min_area : ℚ) (r : PxRoom)
    (hr : r ∈ extract_rooms_from_mask fc mask min_area) :
    r.class_name ≠ "background" ∧ r.class_name ≠ "wall" := by
  unfold extract_rooms_from_mask at hr
  rw [List.mem_flatMap] at hr
  obtain ⟨cid, hcid, hmem⟩ := hr
  rw [List.mem_range] at hcid
  by_cases h02 : cid = 0 ∨ cid = 2
  · rw [if_pos h02] at hmem
    exact absurd hmem (List.not_mem_nil r)
  · rw [if_neg h02] at hmem
    rw [List.mem_map] at hmem
    obtain ⟨c, hc, rfl⟩ := hmem
    push_neg at h02
    have hcid11 : cid < 11 := hcid
    interval_cases cid <;> simp_all [roomOf, ROOM_CATEGORIES]

/-- Witness for C6: a concrete contour finder and mask producing an
outdoor-labelled room, on which the extracted label is neither background
nor wall. -/
theorem C6_no_background_or_wall_witness :
    (⟨0, 0, 10, 10, "outdoor"⟩ : PxRoom) ∈
      extract_rooms_from_mask (fun _ => [⟨500, 0, 0, 10, 10⟩]) (fun _ _ => 1) 500 ∧
    ((⟨0, 0, 10, 10, "outdoor"⟩ : PxRoom).class_name ≠ "background" ∧
     (⟨0, 0, 10, 10, "outdoor"⟩ : PxRoom).class_name ≠ "wall") :=
  ⟨by decide,
   C6_no_background_or_wall (fun _ => [⟨500, 0, 0, 10, 10⟩]) (fun _ _ => 1) 500
     ⟨0, 0, 10, 10, "outdoor"⟩ (by decide)⟩

/-- C7: the min_area threshold is boundary-inclusive (the source keeps a
contour when area >= min_area, default 500).  A contour of a non-skipped
class whose area is at least min_area - in particular exactly min_area -
contributes its room to the output, and every output room arises from some
contour of a non-skipped class whose area is at least min_area, so a region
with area strictly below min_area never contributes. -/
theorem C7_min_area_boundary (fc : (Nat → Nat → Bool) → List Contour)
    (mask : Nat → Nat → Nat) (min_area : ℚ) (cid : Nat) (c : Contour)
    (hcid : cid < NUM_CLASSES) (h0 : cid ≠ 0) (h2 : cid ≠ 2)
    (hc : c ∈ fc (fun i j => mask i j == cid)) :
    (min_area ≤ c.area → roomOf cid c ∈ extract_rooms_from_mask fc mask min_area) ∧
    (∀ r ∈ extract_rooms_from_mask fc mask min_area,
      ∃ cid2 c2, cid2 < NUM_CLASSES ∧ cid2 ≠ 0 ∧ cid2 ≠ 2 ∧
        c2 ∈ fc (fun i j => mask i j == cid2) ∧ min_area ≤ c2.area ∧ r = roomOf cid2 c2) := by
  constructor
  · intro harea
    unfold extract_rooms_from_mask
    rw [List.mem_flatMap]
    refine ⟨cid, List.mem_range.mpr hcid, ?_⟩
    rw [if_neg (by push_neg; exact ⟨h0, h2⟩)]
    exact List.mem_map_of_mem _ (List.mem_filter.mpr ⟨hc, decide_eq_true harea⟩)
  · intro r hr
    unfold extract_rooms_from_mask at hr
    rw [List.mem_flatMap] at hr
    obtain ⟨cid2, hcid2, hmem⟩ := hr
    rw [List.mem_range] at hcid2
    by_cases h02 : cid2 = 0 ∨ cid2 = 2
    · rw [if_pos h02] at hmem
      exact absurd hmem (List.not_mem_nil r)
    · rw [if_neg h02] at hmem
      rw [List.mem_map] at hmem
      obtain ⟨c2, hc2, rfl⟩ := hmem
      rw [List.mem_filter] at hc2
      push_neg at h02
      exact ⟨cid2, c2, hcid2, h02.1, h02.2, hc2.1, of_decide_eq_true hc2.2, rfl⟩

/-- Witness for C7: a bedroom-class contour whose area equals the threshold
exactly is included in the extractor output. -/
theorem C7_min_area_boundary_witness :
    roomOf 5 ⟨500, 0, 0, 10, 10⟩ ∈
      extract_rooms_from_mask (fun _ => [⟨500, 0, 0, 10, 10⟩]) (fun _ _ => 5) 500 :=
  (C7_min_area_boundary (fun _ => [⟨500, 0, 0, 10, 10⟩]) (fun _ _ => 5) 500 5
      ⟨500, 0, 0, 10, 10⟩ (by decide) (by decide) (by decide) (by decide)).1 (by decide)

/-- C2: when the primary detector returns an empty list, the orchestrator
output is exactly the hybrid detector output for the same color image,
grayscale image, flags and debug directory, with the fallback marked
invoked; when the primary list is nonempty the fallback is not invoked and
the primary output is final. -/
theorem C2_fallback_equivalence {Img : Type}
    (advanced : Img → Img → String → Bool → String → List PxRoom)
    (hybrid : Img → Img → Bool → String → List PxRoom)
    (image gray : Img) (use_sam sam_available : Bool) (job_dir : String) :
    (advanced image gray "floorplan" (use_sam && sam_available) job_dir = [] →
      room_detection advanced hybrid image gray use_sam sam_available job_dir =
        (hybrid image gray (use_sam && sam_available) job_dir, true)) ∧
    (advanced image gray "floorplan" (use_sam && sam_available) job_dir ≠ [] →
      (room_detection advanced hybrid image gray use_sam sam_available job_dir).2 = false ∧
      (room_detection advanced hybrid image gray use_sam sam_available job_dir).1 =
        advanced image gray "floorplan" (use_sam && sam_available) job_dir) := by
  constructor
  · intro hemp
    unfold room_detection
    rw [hemp]
    rfl
  · intro hne
    unfold room_detection
    rw [if_neg (by simpa using hne)]
    exact ⟨rfl, rfl⟩

/-- Witness for C2: an always-empty primary detector hands the hybrid
output through unchanged, with the fallback flag set. -/
theorem C2_fallback_equivalence_witness :
    (fun (_ _ : Unit) (_ : String) (_ : Bool) (_ : String) => ([] : List PxRoom))
        () () "floorplan" (true && true) "job" = [] ∧
    room_detection (fun _ _ _ _ _ => ([] : List PxRoom))
        (fun _ _ _ _ => [⟨0, 0, 1, 1, "other"⟩]) () () true true "job" =
      ([⟨0, 0, 1, 1, "other"⟩], true) :=
  ⟨rfl,
   (C2_fallback_equivalence (fun _ _ _ _ _ => ([] : List PxRoom))
      (fun _ _ _ _ => [⟨0, 0, 1, 1, "other"⟩]) () () true true "job").1 rfl⟩

/-- C3: when both the primary and the fallback detector return empty lists,
the orchestrator raises HTTPException 422 with the "No rooms detected in
image" message, and the orchestrator never returns an empty success. -/
theorem C3_empty_detection_error {Img : Type}
    (advanced : Img → Img → String → Bool → String → List PxRoom)
    (hybrid : Img → Img → Bool → String → List PxRoom)
    (image gray : Img) (use_sam sam_available : Bool) (job_dir : String) :
    (advanced image gray "floorplan" (use_sam && sam_available) job_dir = [] →
     hybrid image gray (use_sam && sam_available) job_dir = [] →
      detection_result advanced hybrid image gray use_sam sam_available job_dir =
        Except.error ⟨422, "No rooms detected in image"⟩) ∧
    (∀ rs, detection_result advanced hybrid image gray use_sam sam_available job_dir =
        Except.ok rs → rs ≠ []) := by
  constructor
  · intro h1 h2
    unfold detection_result room_detection
    rw [h1, h2]
    rfl
  · intro rs hrs
    unfold detection_result at hrs
    by_cases he :
      (room_detection advanced hybrid image gray use_sam sam_available job_dir).1.isEmpty
    · rw [if_pos he] at hrs
      exact absurd hrs (by simp)
    · rw [if_neg he] at hrs
      have heq :
          (room_detection advanced hybrid image gray use_sam sam_available job_dir).1 = rs := by
        injection hrs
      intro hnil
      rw [hnil] at heq
      exact he (by rw [heq]; rfl)

/-- Witness for C3: with both detectors empty the orchestrator yields the
422 error. -/
theorem C3_empty_detection_error_witness :
    detection_result (fun (_ _ : Unit) (_ : String) (_ : Bool) (_ : String) => ([] : List PxRoom))
        (fun _ _ _ _ => ([] : List PxRoom)) () () true true "job" =
      Except.error ⟨422, "No rooms detected in image"⟩ :=
  (C3_empty_detection_error (fun _ _ _ _ _ => ([] : List PxRoom))
      (fun _ _ _ _ => ([] : List PxRoom)) () () true true "job").1 rfl rfl

/-- C4: the primary strategy never propagates a failure: with the torch
runtime unavailable it returns [], when any step of loading, prediction or
extraction raises it returns [], and only a fully successful pipeline run
yields its room list. -/
theorem C4_primary_absorbs_failures {M Mask Img : Type} (torch_available : Bool)
    (load : Except String M) (predict : M → Img → Except String Mask)
    (extract : M → Mask → ℚ → Except String (List PxRoom))
    (model : Option M) (image : Img) (min_area : ℚ) :
    (torch_available = false →
      detect_rooms_floorplan_model torch_available load predict extract model image min_area
        = []) ∧
    (∀ e, run_primary load predict extract model image min_area = Except.error e →
      detect_rooms_floorplan_model torch_available load predict extract model image min_area
        = []) ∧
    (∀ rooms, torch_available = true →
      run_primary load predict extract model image min_area = Except.ok rooms →
      detect_rooms_floorplan_model torch_available load predict extract model image min_area
        = rooms) := by
  refine ⟨?_, ?_, ?_⟩
  · intro h
    simp [detect_rooms_floorplan_model, h]
  · intro e he
    by_cases ht : torch_available = false
    · simp [detect_rooms_floorplan_model, ht]
    · simp [detect_rooms_floorplan_model, ht, he]
  · intro rooms ht hok
    simp [detect_rooms_floorplan_model, ht, hok]

/-- Witness for C4: a failing model load is absorbed into an empty room
list. -/
theorem C4_primary_absorbs_failures_witness :
    run_primary (Except.error "weights missing" : Except String Unit)
        (fun _ (_ : Unit) => Except.ok ()) (fun _ _ _ => Except.ok ([] : List PxRoom))
        none () 500 = Except.error "weights missing" ∧
    detect_rooms_floorplan_model true (Except.error "weights missing" : Except String Unit)
        (fun _ (_ : Unit) => Except.ok ()) (fun _ _ _ => Except.ok ([] : List PxRoom))
        none () 500 = [] :=
  ⟨rfl,
   (C4_primary_absorbs_failures true (Except.error "weights missing")
      (fun _ _ => Except.ok ()) (fun _ _ _ => Except.ok ([] : List PxRoom))
      none () 500).2.1 "weights missing" rfl⟩

/-- One cache call never removes or changes an existing entry: cached keys
keep their instances. -/
theorem lookup_preserved (st : CacheState) (p : Option String) (k : String)
    (v : ModelInstance) (hv : st.cache.lookup k = some v) :
    (load_floorplan_model st p).2.cache.lookup k = some v := by
  simp only [load_floorplan_model]
  cases hk : st.cache.lookup (cacheKey p) with
  | some inst => simp [hk, hv]
  | none =>
    have hne : k ≠ cacheKey p := by
      intro h
      rw [h, hk] at hv
      cases hv
    have hb : (k == cacheKey p) = false := beq_eq_false_iff_ne.mpr hne
    simp [hk, List.lookup, hb, hv]

/-- C9: a first call for a key constructs an instance from the given path
and stores it under that key; a call for a cached key returns the stored
instance and leaves the state untouched; no sequence of further lookups ever
evicts or changes a cached entry; and an immediate repeat call for the same
path returns the identical instance. -/
theorem C9_cache_semantics (st : CacheState) (p : Option String)
    (ps : List (Option String)) :
    (st.cache.lookup (cacheKey p) = none →
      load_floorplan_model st p =
        (⟨st.nextId, p⟩, ⟨(cacheKey p, ⟨st.nextId, p⟩) :: st.cache, st.nextId + 1⟩)) ∧
    (∀ v, st.cache.lookup (cacheKey p) = some v → load_floorplan_model st p = (v, st)) ∧
    (∀ k v, st.cache.lookup k = some v → (run_lookups st ps).cache.lookup k = some v) ∧
    (load_floorplan_model (load_floorplan_model st p).2 p).1 =
      (load_floorplan_model st p).1 := by
  refine ⟨?_, ?_, ?_, ?_⟩
  · intro h
    simp [load_floorplan_model, h]
  · intro v hv
    simp [load_floorplan_model, hv]
  · intro k v hv
    induction ps generalizing st with
    | nil => exact hv
    | cons q qs ih =>
      exact ih (load_floorplan_model st q).2 (lookup_preserved st q k v hv)
  · cases hk : st.cache.lookup (cacheKey p) with
    | some inst => simp [load_floorplan_model, hk]
    | none => simp [load_floorplan_model, hk, List.lookup]

/-- Witness for C9: the first lookup on an empty cache constructs instance 0
and stores it under the "default" key. -/
theorem C9_cache_semantics_witness :
    ((⟨[], 0⟩ : CacheState).cache.lookup (cacheKey none) = none) ∧
    load_floorplan_model ⟨[], 0⟩ none =
      (⟨0, none⟩, ⟨[(cacheKey none, ⟨0, none⟩)], 1⟩) :=
  ⟨rfl, (C9_cache_semantics ⟨[], 0⟩ none []).1 rfl⟩

/-- C10 counterexample: the truthy path string "default" is NOT used as a
key distinct from the falsy-normalized one - after a first call with None,
a call with the path "default" returns the very instance constructed for
None and performs no new construction, refuting the claim that every truthy
path produces a separately constructed instance. -/
theorem C10_default_string_aliases :
    (load_floorplan_model (load_floorplan_model ⟨[], 0⟩ none).2 (some "default")).1 =
      (load_floorplan_model ⟨[], 0⟩ none).1 ∧
    (load_floorplan_model (load_floorplan_model ⟨[], 0⟩ none).2 (some "default")).2 =
      (load_floorplan_model ⟨[], 0⟩ none).2 := by
  exact ⟨rfl, rfl⟩

/-- C10 (amended): None and "" normalize to the single key "default" and
return the identical cached instance, and a truthy path other than the
literal string "default" is its own distinct key whose first use constructs
a separate instance; the literal string "default" instead aliases the
falsy-normalized key. -/
theorem C10_key_normalization (st : CacheState) (p : String)
    (hne : p ≠ "") (hnd : p ≠ "default") :
    cacheKey none = "default" ∧
    cacheKey (some "") = "default" ∧
    cacheKey (some p) = p ∧
    (load_floorplan_model (load_floorplan_model st none).2 (some "")).1 =
      (load_floorplan_model st none).1 ∧
    (st.cache.lookup p = none →
      (load_floorplan_model st (some p)).1 = ⟨st.nextId, some p⟩) ∧
    (load_floorplan_model (load_floorplan_model ⟨[], 0⟩ none).2 (some p)).1 ≠
      (load_floorplan_model ⟨[], 0⟩ none).1 := by
  refine ⟨rfl, rfl, by simp [cacheKey, hne], ?_, ?_, ?_⟩
  · cases hk : st.cache.lookup "default" with
    | some inst =>
      simp [load_floorplan_model, cacheKey, hk]
    | none =>
      simp [load_floorplan_model, cacheKey, hk, List.lookup]
  · intro hmiss
    simp [load_floorplan_model, cacheKey, hne, hmiss]
  · have hb : (p == "default") = false := beq_eq_false_iff_ne.mpr hnd
    simp [load_floorplan_model, cacheKey, hne, List.lookup, hb]

/-- Witness for C10 (amended) at the concrete path of the default weights
file. -/
theorem C10_key_normalization_witness :
    ("gem_ai/models/best_model.pt" ≠ "") ∧
    ("gem_ai/models/best_model.pt" ≠ "default") ∧
    (cacheKey none = "default" ∧
     cacheKey (some "") = "default" ∧
     cacheKey (some "gem_ai/models/best_model.pt") = "gem_ai/models/best_model.pt" ∧
     (load_floorplan_model (load_floorplan_model ⟨[], 0⟩ none).2 (some "")).1 =
       (load_floorplan_model ⟨[], 0⟩ none).1 ∧
     ((⟨[], 0⟩ : CacheState).cache.lookup "gem_ai/models/best_model.pt" = none →
       (load_floorplan_model ⟨[], 0⟩ (some "gem_ai/models/best_model.pt")).1 =
         ⟨0, some "gem_ai/models/best_model.pt"⟩) ∧
     (load_floorplan_model (load_floorplan_model ⟨[], 0⟩ none).2
         (some "gem_ai/models/best_model.pt")).1 ≠
       (load_floorplan_model ⟨[], 0⟩ none).1) :=
  ⟨by decide, by decide,
   C10_key_normalization ⟨[], 0⟩ "gem_ai/models/best_model.pt" (by decide) (by decide)⟩

/-- C5 counterexample: for a concrete successful analysis whose single
detected pixel room has class_name "bedroom", the string "bedroom" occurs
nowhere in the result record returned to the caller - the metric rooms carry
no class_name and the pixel-space room list is not part of the record - so
neither the pixel-space list nor the original class_name is available in
that output, refuting the claim as stated. -/
theorem C5_class_name_absent :
    "bedroom" ∉ resultStrings
      (analyze_result "job1" "SAM" (scale_info_user 100) 800 600
        (rooms_m_of [⟨100, 50, 80, 40, "bedroom"⟩] 600 100) 3) := by
  decide

/-- C5 (amended): the result record contains the metric room list, the
rounded total floor area, the scale estimate used, the floor height and
references to the persisted artifacts, under exactly the keys main.py
writes; the pixel-space room list is not among those keys, and every metric
room dict carries exactly the keys x, y, width, height, area_m2 - the
original class_name is never overwritten by the derived type label, but it
is dropped from the caller-facing record rather than carried alongside. -/
theorem C5_result_record_contents (job_id method : String)
    (scale_info : List (String × Prim)) (width height : ℤ)
    (rooms_px : List PxRoom) (ppm floor_height : ℚ) :
    ((analyze_result job_id method scale_info width height
        (rooms_m_of rooms_px height ppm) floor_height).lookup "rooms" =
      some (RVal.ld (rooms_m_of rooms_px height ppm))) ∧
    ((analyze_result job_id method scale_info width height
        (rooms_m_of rooms_px height ppm) floor_height).lookup "total_area_m2" =
      some (RVal.p (Prim.q (round1 (total_area (rooms_m_of rooms_px height ppm)))))) ∧
    ((analyze_result job_id method scale_info width height
        (rooms_m_of rooms_px height ppm) floor_height).lookup "scale" =
      some (RVal.d scale_info)) ∧
    ((analyze_result job_id method scale_info width height
        (rooms_m_of rooms_px height ppm) floor_height).lookup "floor_height_m" =
      some (RVal.p (Prim.q floor_height))) ∧
    ((analyze_result job_id method scale_info width height
        (rooms_m_of rooms_px height ppm) floor_height).lookup "files" =
      some (RVal.d (files_dict job_id))) ∧
    ((analyze_result job_id method scale_info width height
        (rooms_m_of rooms_px height ppm) floor_height).map Prod.fst =
      ["job_id", "status", "method", "scale", "image_size", "rooms_detected",
       "total_area_m2", "floor_height_m", "rooms", "files"]) ∧
    ((rooms_m_of rooms_px height ppm).all
      (fun d => d.map Prod.fst == ["x", "y", "width", "height", "area_m2"]) = true) := by
  refine ⟨rfl, rfl, rfl, rfl, rfl, rfl, ?_⟩
  rw [List.all_eq_true]
  intro d hd
  obtain ⟨r, hr, rfl⟩ := List.mem_map.mp hd
  rfl

end AfterLiving
